import Mathlib

/-!
Verification development for the a2a-python task-execution and
event-streaming core.  The repository snapshot ships the test suite of the
core but not the core modules themselves (`event_queue.py`,
`event_consumer.py`, `result_aggregator.py`, `task_manager.py`,
`client_task_manager.py`, `default_request_handler.py`, `helpers.py`), so
every definition below is modelled from the specification document of the
core, cross-checked against the shipped tests.
-/

namespace A2A

/-! ## Data model -/

/-- Modelled from the spec: a content part of a message or artifact.  Only
the text variant is needed by the properties below; parts are treated as
opaque payloads by the core. -/
inductive Part where
  | text (s : String)
deriving DecidableEq, Repr

/-- Modelled from the spec: the role of a message author. -/
inductive Role where
  | user
  | agent
deriving DecidableEq, Repr

/-- Modelled from the spec: `Message = {message_id, role, parts, task_id?,
context_id?}`. -/
structure Message where
  message_id : String
  role : Role
  parts : List Part
  task_id : Option String := none
  context_id : Option String := none
deriving DecidableEq, Repr

/-- Modelled from the spec: the `TaskState` enum
`submitted → working → {input_required, auth_required} ⇄ working →
{completed, canceled, failed, rejected}`. -/
inductive TaskState where
  | submitted
  | working
  | input_required
  | auth_required
  | completed
  | canceled
  | failed
  | rejected
deriving DecidableEq, Repr

/-- The wire value of a `TaskState`, used in error messages. -/
def TaskState.toValue : TaskState → String
  | .submitted => "submitted"
  | .working => "working"
  | .input_required => "input-required"
  | .auth_required => "auth-required"
  | .completed => "completed"
  | .canceled => "canceled"
  | .failed => "failed"
  | .rejected => "rejected"

/-- Modelled from the spec: the last four states are terminal. -/
def TaskState.isTerminal : TaskState → Bool
  | .completed => true
  | .canceled => true
  | .failed => true
  | .rejected => true
  | _ => false

/-- Modelled from the spec: `TaskStatus = {state, message|null, timestamp}`. -/
structure TaskStatus where
  state : TaskState
  message : Option Message := none
  timestamp : Option String := none
deriving DecidableEq, Repr

/-- Modelled from the spec: `Artifact = {artifact_id, name?, description?,
parts}`. -/
structure Artifact where
  artifact_id : String
  name : Option String := none
  description : Option String := none
  parts : List Part
deriving DecidableEq, Repr

/-- Modelled from the spec: `Task = {id, context_id, status, history,
artifacts}` (history and artifacts are nullable lists, as in the source's
pydantic model). -/
structure Task where
  id : String
  context_id : String
  status : TaskStatus
  history : Option (List Message) := none
  artifacts : Option (List Artifact) := none
deriving DecidableEq, Repr

/-- Modelled from the spec: a task status-update event. -/
structure TaskStatusUpdateEvent where
  task_id : String
  context_id : String
  status : TaskStatus
  final : Bool
deriving DecidableEq, Repr

/-- Modelled from the spec: a task artifact-update event; `append` is an
optional boolean (absent means replace). -/
structure TaskArtifactUpdateEvent where
  task_id : String
  context_id : String
  artifact : Artifact
  append : Option Bool := none
deriving DecidableEq, Repr

/-- Modelled from the spec: the closed event union consumed from a queue:
`Task | Message | TaskStatusUpdateEvent | TaskArtifactUpdateEvent`. -/
inductive Event where
  | task (t : Task)
  | message (m : Message)
  | statusUpdate (e : TaskStatusUpdateEvent)
  | artifactUpdate (e : TaskArtifactUpdateEvent)
deriving DecidableEq, Repr

/-- Whether an event is a bare `Message`. -/
def Event.isMessage : Event → Bool
  | .message _ => true
  | _ => false

/-! ## EventQueue

Modelled from the spec: a bounded, closable, multicast event channel.  A
queue holds a FIFO buffer, a closed flag, a count of how many times the
underlying drain/shutdown action has run (the spec's "recursively closes
every tapped child exactly once"), and the list of tapped children.  The
cooperative-concurrency suspension points are modelled as explicit
outcomes of the pure transition functions. -/

inductive EventQueue : Type where
  | mk (buffer : List Event) (is_closed : Bool) (shutdown_calls : Nat)
      (children : List EventQueue)

/-- The FIFO buffer of events not yet dequeued. -/
def EventQueue.buffer : EventQueue → List Event
  | .mk b _ _ _ => b

/-- Modelled from the spec: `is_closed()`, the observable closed flag. -/
def EventQueue.is_closed : EventQueue → Bool
  | .mk _ c _ _ => c

/-- How many times the queue's underlying drain/shutdown action has run. -/
def EventQueue.shutdown_calls : EventQueue → Nat
  | .mk _ _ s _ => s

/-- The child queues registered by `tap()`. -/
def EventQueue.children : EventQueue → List EventQueue
  | .mk _ _ _ ch => ch

/-- A fresh, open, empty queue with no taps. -/
def EventQueue.new : EventQueue := .mk [] false 0 []

mutual

/-- Modelled from the spec: `enqueue(event)` appends to the internal
buffer (no-op with a logged warning if the queue is already closed) and
forwards the same event, in the same order, to every queue produced by
`tap()` at the time of enqueue. -/
def EventQueue.enqueue_event (e : Event) : EventQueue → EventQueue
  | .mk b closed sc ch =>
    if closed then .mk b closed sc ch
    else .mk (b ++ [e]) closed sc (enqueueChildren e ch)

/-- Forward an enqueued event to each child queue in order. -/
def enqueueChildren (e : Event) : List EventQueue → List EventQueue
  | [] => []
  | c :: cs => EventQueue.enqueue_event e c :: enqueueChildren e cs

end

mutual

/-- Modelled from the spec: `close()` is idempotent; it marks the queue
closed, performs the underlying drain/shutdown action once, and
recursively closes every tapped child exactly once. -/
def EventQueue.close : EventQueue → EventQueue
  | .mk b closed sc ch =>
    if closed then .mk b closed sc ch
    else .mk b true (sc + 1) (closeChildren ch)

/-- Close each child queue in order. -/
def closeChildren : List EventQueue → List EventQueue
  | [] => []
  | c :: cs => EventQueue.close c :: closeChildren cs

end

/-- Modelled from the spec: `tap()` creates and registers a new child
EventQueue that receives a live copy of every subsequent enqueue, and
returns the child (second component) together with the updated parent
(first component). -/
def EventQueue.tap : EventQueue → EventQueue × EventQueue
  | .mk b closed sc ch => (.mk b closed sc (ch ++ [EventQueue.new]), EventQueue.new)

/-- The possible outcomes of a `dequeue(wait)` call in the cooperative
concurrency model: raise `QueueEmpty`, suspend the caller until an event
arrives, or return the oldest event together with the updated queue. -/
inductive DequeueOutcome where
  | raiseQueueEmpty
  | suspend
  | item (e : Event) (q : EventQueue)

/-- Modelled from the spec: `dequeue(wait)` removes and returns the oldest
event.  If the queue is closed and empty it raises `QueueEmpty` in both
modes rather than suspending forever; with `no_wait` it raises
`QueueEmpty` immediately on an empty queue; with waiting it suspends
until an event arrives. -/
def EventQueue.dequeue_event (no_wait : Bool) : EventQueue → DequeueOutcome
  | .mk [] closed _ _ =>
    if closed then .raiseQueueEmpty
    else if no_wait then .raiseQueueEmpty
    else .suspend
  | .mk (e :: rest) closed sc ch => .item e (.mk rest closed sc ch)

/-- Enqueue a list of events in order. -/
def EventQueue.enqueue_all (q : EventQueue) (es : List Event) : EventQueue :=
  es.foldl (fun acc e => EventQueue.enqueue_event e acc) q

/-- Apply `tap` repeatedly, keeping the parent. -/
def EventQueue.tapN : Nat → EventQueue → EventQueue
  | 0, q => q
  | n + 1, q => EventQueue.tapN n (EventQueue.tap q).1

/-! ## EventConsumer -/

/-- Modelled from the spec: `EventConsumer.consumeAll` viewed over the
materialised sequence of events its queue delivers before closing: each
event is yielded in order; yielding a bare `Message` event stops the
sequence immediately after that yield; exhaustion of the closed queue
ends the sequence. -/
def EventConsumer.consume_all : List Event → List Event
  | [] => []
  | e :: rest =>
    if e.isMessage then [e]
    else e :: EventConsumer.consume_all rest

/-! ## ResultAggregator

Modelled from the spec: the aggregator composes an EventConsumer with a
TaskManager; it is verified here uniformly in the task-manager interface
(a state type with `process` and `get_task`), exactly the way the shipped
aggregator tests drive it against a mocked task manager. -/

/-- The TaskManager interface the ResultAggregator drives. -/
structure TaskManagerIface (σ : Type) where
  process : σ → Event → σ
  get_task : σ → Option Task

/-- A task-manager instance that records the list of events passed to
`process`, used to observe exactly which events an aggregator run folds. -/
def recorderTM : TaskManagerIface (List Event) where
  process := fun l e => l ++ [e]
  get_task := fun _ => none

/-- The aggregator's result: a captured bare `Message`, or the
TaskManager's current task. -/
inductive AggResult where
  | msg (m : Message)
  | task (t : Task)
deriving DecidableEq, Repr

/-- Modelled from the spec: an event yields a task/status whose
`TaskState` is `auth_required`. -/
def Event.interrupts : Event → Bool
  | .task t => t.status.state == .auth_required
  | .statusUpdate u => u.status.state == .auth_required
  | _ => false

/-- Modelled from the spec: `consumeAll(consumer)` fully drains the
consumer, folding every event into `TaskManager.process`, and returns the
final current result; a bare `Message` event is returned immediately
without being folded and without further draining.  Returns the final
task-manager state together with the result. -/
def ResultAggregator.consume_all {σ : Type} (TM : TaskManagerIface σ) :
    σ → List Event → σ × Option AggResult
  | s, [] => (s, (TM.get_task s).map .task)
  | s, e :: rest =>
    match e with
    | .message m => (s, some (.msg m))
    | _ => ResultAggregator.consume_all TM (TM.process s e) rest

/-- The outcome of `consumeAndBreakOnInterrupt`: the task-manager state
after the foreground drain, the returned result, the interrupted flag,
and the remainder of the event stream handed to the background
continuation. -/
structure BreakOutcome (σ : Type) where
  state : σ
  result : Option AggResult
  interrupted : Bool
  background : List Event

/-- Modelled from the spec: `consumeAndBreakOnInterrupt(consumer,
blocking)` drains events one at a time, folding each into
`TaskManager.process`.  A bare `Message` event is returned as
`(message, false)` with no further draining.  An event whose task/status
state is `auth_required` — or, with `blocking=false`, the first event of
any state — makes the call return `(currentResult, true)` immediately,
scheduling the remainder of the stream as the background continuation.
A stream that exhausts normally returns `(currentResult, false)`. -/
def ResultAggregator.consume_and_break_on_interrupt {σ : Type}
    (TM : TaskManagerIface σ) (blocking : Bool) :
    σ → List Event → BreakOutcome σ
  | s, [] => ⟨s, (TM.get_task s).map .task, false, []⟩
  | s, e :: rest =>
    match e with
    | .message m => ⟨s, some (.msg m), false, []⟩
    | _ =>
      let s2 := TM.process s e
      if e.interrupts || !blocking then
        ⟨s2, (TM.get_task s2).map .task, true, rest⟩
      else ResultAggregator.consume_and_break_on_interrupt TM blocking s2 rest

/-- Modelled from the spec: the fire-and-forget background continuation
scheduled at an interrupt keeps draining the remainder of the event
stream, folding each remaining event into `TaskManager.process`. -/
def ResultAggregator.continue_consuming {σ : Type} (TM : TaskManagerIface σ)
    (s : σ) (events : List Event) : σ :=
  events.foldl TM.process s

/-! ## Artifact merge policy (`append_artifact_to_task`) -/

/-- Modelled from the spec: the `append=false`/absent policy: replace the
first artifact carrying the incoming artifact's id; if none is present,
append the incoming artifact to the end of the task's artifact list. -/
def replaceOrAdd (new : Artifact) : List Artifact → List Artifact
  | [] => [new]
  | a :: rest =>
    if a.artifact_id == new.artifact_id then new :: rest
    else a :: replaceOrAdd new rest

/-- Modelled from the spec: the `append=true` policy: extend the parts of
the first artifact carrying the incoming artifact's id with the incoming
parts, in order. -/
def appendPartsTo (new : Artifact) : List Artifact → List Artifact
  | [] => []
  | a :: rest =>
    if a.artifact_id == new.artifact_id then
      { a with parts := a.parts ++ new.parts } :: rest
    else a :: appendPartsTo new rest

/-- Whether some artifact in the list carries the given id. -/
def hasArtifactId (aid : String) (arts : List Artifact) : Bool :=
  arts.any fun a => a.artifact_id == aid

/-- Modelled from the spec: `append_artifact_to_task` applies a
`TaskArtifactUpdateEvent` to a task: with `append=true` it extends the
matching artifact's parts, and when no artifact matches the incoming id
the update is dropped and the task is left unchanged (the spec text is
silent on the no-match append case; the shipped helper test pins it to a
silent drop); with `append=false`/absent it replaces the matching
artifact, or appends a new artifact if none matches. -/
def append_artifact_to_task (task : Task) (event : TaskArtifactUpdateEvent) : Task :=
  let arts := task.artifacts.getD []
  if event.append.getD false then
    if hasArtifactId event.artifact.artifact_id arts then
      { task with artifacts := some (appendPartsTo event.artifact arts) }
    else task
  else { task with artifacts := some (replaceOrAdd event.artifact arts) }

/-! ## Task accumulation (status updates and `updateWithMessage`) -/

/-- Modelled from the spec: the minimal task synthesized from a status
update event's ids when no task exists yet (its placeholder status is
immediately overwritten by the event's status). -/
def newTaskFromStatusEvent (ev : TaskStatusUpdateEvent) : Task :=
  { id := ev.task_id, context_id := ev.context_id,
    status := { state := .submitted }, history := none, artifacts := none }

/-- Modelled from the spec: processing a `TaskStatusUpdateEvent`: if no
task exists yet, a minimal one is synthesized from the event's ids; if
the incoming status carries a message, that message is appended to the
task's history; then the incoming status is stored. -/
def process_status_update (task : Option Task) (ev : TaskStatusUpdateEvent) : Task :=
  let t := task.getD (newTaskFromStatusEvent ev)
  let t2 :=
    match ev.status.message with
    | some m => { t with history := some (t.history.getD [] ++ [m]) }
    | none => t
  { t2 with status := ev.status }

/-- Modelled from the spec: `updateWithMessage(message, task)` appends
`message` to `task.history`, first moving any message currently sitting
in `task.status.message` into history ahead of it and clearing that slot
(a status message must never be duplicated across both slots). -/
def update_with_message (m : Message) (t : Task) : Task :=
  match t.status.message with
  | some sm =>
    { t with
      history := some (t.history.getD [] ++ [sm, m]),
      status := { t.status with message := none } }
  | none => { t with history := some (t.history.getD [] ++ [m]) }

/-! ## RequestOrchestrator (the default request handler) -/

/-- Modelled from the spec: the tagged server-error taxonomy surfaced by
the orchestrator. -/
inductive A2AErrorKind where
  | taskNotFound
  | invalidParams (message : String)
  | internalError (message : String)
  | unsupportedOperation
deriving DecidableEq, Repr

/-- The error message of the terminal-state guard, as asserted by the
shipped handler tests. -/
def terminalStateMessage (t : Task) : String :=
  "Task " ++ t.id ++ " is in terminal state: " ++ t.status.state.toValue

/-- The launch record of a send call: how many times the AgentExecutor's
`execute` was invoked by this call. -/
structure SendStarted where
  executeCalls : Nat
deriving DecidableEq, Repr

/-- Modelled from the spec: the validation-and-launch phase of the
orchestrator's blocking send: reject with `InvalidParams` if the
referenced task already exists and is in a terminal state — never
invoking the agent — and otherwise start the AgentExecutor's `execute`
as a background unit (recorded as exactly one execute call). -/
def on_message_send (current_task : Option Task) : Except A2AErrorKind SendStarted :=
  match current_task with
  | some t =>
    if t.status.state.isTerminal then
      .error (.invalidParams (terminalStateMessage t))
    else .ok { executeCalls := 1 }
  | none => .ok { executeCalls := 1 }

/-- Modelled from the spec: the streaming send performs the same setup and
validation as the blocking send. -/
def on_message_send_stream (current_task : Option Task) : Except A2AErrorKind SendStarted :=
  on_message_send current_task

/-- How many `AgentExecutor.execute` invocations a send outcome carries
(an error outcome never invoked the agent). -/
def executeCallCount : Except A2AErrorKind SendStarted → Nat
  | .ok s => s.executeCalls
  | .error _ => 0

/-- The launch record of a resubscribe call: the tapped queue streamed to
the caller; resubscribe never starts a new execution. -/
structure ResubscribeStarted where
  tapped : EventQueue
  executeCalls : Nat

/-- Modelled from the spec: resubscribe: the task must exist and be
non-terminal (else `TaskNotFound` / `InvalidParams`); the existing queue
is tapped (absence of a queue to tap is `TaskNotFound`); the stream is
served without invoking the agent again (zero execute calls). -/
def on_resubscribe_to_task (current_task : Option Task)
    (tap_result : Option EventQueue) : Except A2AErrorKind ResubscribeStarted :=
  match current_task with
  | none => .error .taskNotFound
  | some t =>
    if t.status.state.isTerminal then
      .error (.invalidParams (terminalStateMessage t))
    else
      match tap_result with
      | none => .error .taskNotFound
      | some q => .ok { tapped := q, executeCalls := 0 }

/-- The trace of a cancel call on an existing task: the queue handed to
`AgentExecutor.cancel`, whether that hook was invoked, whether the
registered background execution unit was cancelled directly, and the
final result. -/
structure CancelTrace where
  queue_for_cancel : EventQueue
  agent_cancel_called : Bool
  producer_cancelled : Bool
  result : Except A2AErrorKind Task

/-- Modelled from the spec: the result of a cancel call must be a `Task`
(the final state drained via `consumeAll`); an agent returning a bare
`Message` from cancel is an `InternalError`. -/
def cancelResult : AggResult → Except A2AErrorKind Task
  | .msg _ => .error (.internalError "Agent did not return valid response for cancel")
  | .task t => .ok t

/-- Modelled from the spec: cancel: the task must exist (else
`TaskNotFound`); the existing queue is tapped, and a fresh queue is
created if tap yields nothing, so `AgentExecutor.cancel` always receives
a valid queue; if an execution unit is registered for the task id in the
running-agent map it is cancelled directly in addition to invoking
`AgentExecutor.cancel`; the final state drained via `consumeAll` must be
a `Task` — an agent returning a bare `Message` is an `InternalError`. -/
def on_cancel_task (current_task : Option Task) (tap_result : Option EventQueue)
    (running_registered : Bool) (drained : AggResult) :
    Except A2AErrorKind CancelTrace :=
  match current_task with
  | none => .error .taskNotFound
  | some _ =>
    .ok { queue_for_cancel := tap_result.getD EventQueue.new,
          agent_cancel_called := true,
          producer_cancelled := running_registered,
          result := cancelResult drained }

/-! ## Concrete sample values used by the witnesses -/

/-- A parent queue with buffer `b`, open, and one open leaf tap holding
buffer `x` for each entry `x` of `bs`. -/
def mkFan (b : List Event) (bs : List (List Event)) : EventQueue :=
  .mk b false 0 (bs.map fun x => .mk x false 0 [])

/-- A sample agent message. -/
def sampleMessage : Message := { message_id := "m1", role := .agent, parts := [] }

/-- A sample task paused awaiting authorization. -/
def sampleAuthTask : Task :=
  { id := "t1", context_id := "c1", status := { state := .auth_required } }

/-- A sample completed (terminal) task. -/
def sampleCompletedTask : Task :=
  { id := "t3", context_id := "c3", status := { state := .completed } }

/-- A sample message sitting in a task's status slot. -/
def statusMsg : Message := { message_id := "sm", role := .agent, parts := [] }

/-- A sample working task whose status carries a message. -/
def sampleStatusTask : Task :=
  { id := "t2", context_id := "c2",
    status := { state := .working, message := some statusMsg } }

/-- A sample status-update event whose status carries a message. -/
def sampleStatusEvent : TaskStatusUpdateEvent :=
  { task_id := "t2", context_id := "c2",
    status := { state := .completed, message := some sampleMessage }, final := true }

/-- The base task of the artifact-merge scenario (no artifacts yet). -/
def scenarioTask : Task :=
  { id := "task-1", context_id := "ctx-1", status := { state := .submitted } }

/-- The artifact-merge scenario's first event: artifact `a1`,
`append=false`, two parts. -/
def scenarioReplaceEvent : TaskArtifactUpdateEvent :=
  { task_id := "task-1", context_id := "ctx-1",
    artifact := { artifact_id := "a1", parts := [.text "p1", .text "p2"] },
    append := some false }

/-- The artifact-merge scenario's second event: artifact `a1`,
`append=true`, one more part. -/
def scenarioAppendEvent : TaskArtifactUpdateEvent :=
  { task_id := "task-1", context_id := "ctx-1",
    artifact := { artifact_id := "a1", parts := [.text "p3"] },
    append := some true }

/-- The scenario task after the replace event: one artifact `a1` with two
parts. -/
def scenarioMidTask : Task :=
  { id := "task-1", context_id := "ctx-1", status := { state := .submitted },
    artifacts := some [{ artifact_id := "a1", parts := [.text "p1", .text "p2"] }] }

/-- An append-mode update for an artifact id no artifact of the scenario
task carries. -/
def scenarioNoMatchEvent : TaskArtifactUpdateEvent :=
  { task_id := "task-1", context_id := "ctx-1",
    artifact := { artifact_id := "b1", parts := [.text "q1"] },
    append := some true }

/-! ## Helper lemmas on the EventQueue model -/

theorem enqueueChildren_eq_map (e : Event) (cs : List EventQueue) :
    enqueueChildren e cs = cs.map (EventQueue.enqueue_event e) := by
  induction cs with
  | nil => rfl
  | cons c cs ih => rw [enqueueChildren, ih, List.map_cons]

theorem closeChildren_eq_map (cs : List EventQueue) :
    closeChildren cs = cs.map EventQueue.close := by
  induction cs with
  | nil => rfl
  | cons c cs ih => rw [closeChildren, ih, List.map_cons]

theorem enqueue_event_closed (e : Event) (b : List Event) (sc : Nat)
    (ch : List EventQueue) :
    EventQueue.enqueue_event e (.mk b true sc ch) = .mk b true sc ch := by
  rw [EventQueue.enqueue_event]
  simp

theorem enqueue_event_open (e : Event) (b : List Event) (sc : Nat)
    (ch : List EventQueue) :
    EventQueue.enqueue_event e (.mk b false sc ch)
      = .mk (b ++ [e]) false sc (ch.map (EventQueue.enqueue_event e)) := by
  rw [EventQueue.enqueue_event]
  simp [enqueueChildren_eq_map]

theorem close_closed (b : List Event) (sc : Nat) (ch : List EventQueue) :
    EventQueue.close (.mk b true sc ch) = .mk b true sc ch := by
  rw [EventQueue.close]
  simp

theorem close_open (b : List Event) (sc : Nat) (ch : List EventQueue) :
    EventQueue.close (.mk b false sc ch)
      = .mk b true (sc + 1) (ch.map EventQueue.close) := by
  rw [EventQueue.close]
  simp [closeChildren_eq_map]

theorem close_is_closed (q : EventQueue) : (EventQueue.close q).is_closed = true := by
  obtain ⟨b, c, sc, ch⟩ := q
  cases c
  · rw [close_open]; rfl
  · rw [close_closed]; rfl

theorem close_of_closed (q : EventQueue) (h : q.is_closed = true) :
    EventQueue.close q = q := by
  obtain ⟨b, c, sc, ch⟩ := q
  cases c
  · exact absurd h (by simp [EventQueue.is_closed])
  · exact close_closed b sc ch

theorem enqueue_event_mkFan (e : Event) (b : List Event) (bs : List (List Event)) :
    EventQueue.enqueue_event e (mkFan b bs)
      = mkFan (b ++ [e]) (bs.map fun x => x ++ [e]) := by
  rw [mkFan, enqueue_event_open, mkFan, List.map_map, List.map_map]
  congr 1

theorem enqueue_all_mkFan (es : List Event) (b : List Event)
    (bs : List (List Event)) :
    EventQueue.enqueue_all (mkFan b bs) es
      = mkFan (b ++ es) (bs.map fun x => x ++ es) := by
  induction es generalizing b bs with
  | nil => simp [EventQueue.enqueue_all]
  | cons e es ih =>
    rw [EventQueue.enqueue_all, List.foldl_cons, enqueue_event_mkFan]
    show EventQueue.enqueue_all (mkFan (b ++ [e]) (List.map (fun x => x ++ [e]) bs)) es
      = mkFan (b ++ e :: es) (List.map (fun x => x ++ e :: es) bs)
    rw [ih, List.map_map]
    simp [Function.comp_def, mkFan]

theorem tapN_mkFan (n : Nat) (b : List Event) (bs : List (List Event)) :
    EventQueue.tapN n (mkFan b bs) = mkFan b (bs ++ List.replicate n []) := by
  induction n generalizing bs with
  | zero => simp [EventQueue.tapN]
  | succ n ih =>
    rw [EventQueue.tapN]
    have htap : (EventQueue.tap (mkFan b bs)).1 = mkFan b (bs ++ [[]]) := by
      rw [mkFan, EventQueue.tap, mkFan]
      simp [EventQueue.new]
    rw [htap, ih]
    rw [List.append_assoc]
    rfl

theorem tapN_new (k : Nat) :
    EventQueue.tapN k EventQueue.new = mkFan [] (List.replicate k []) := by
  have : EventQueue.new = mkFan [] [] := rfl
  rw [this, tapN_mkFan]
  rfl

/-! ## Claim theorems for the EventQueue -/

/-- C4: starting from a fresh queue, every event enqueued is forwarded in
enqueue order to every child created by `tap()` before that enqueue: after
`k` taps and then enqueuing the events `es`, the parent and each of the
`k` taps hold exactly the events `es` in order, while a tap created after
those enqueues holds none of them. -/
theorem fan_out_to_taps (es : List Event) (k : Nat) :
    (EventQueue.enqueue_all (EventQueue.tapN k EventQueue.new) es).buffer = es
    ∧ (EventQueue.enqueue_all (EventQueue.tapN k EventQueue.new) es).children.length = k
    ∧ (∀ c ∈ (EventQueue.enqueue_all (EventQueue.tapN k EventQueue.new) es).children,
        c.buffer = es)
    ∧ ((EventQueue.tap (EventQueue.enqueue_all (EventQueue.tapN k EventQueue.new) es)).2).buffer
        = [] := by
  rw [tapN_new, enqueue_all_mkFan]
  refine ⟨rfl, ?_, ?_, rfl⟩
  · simp [mkFan, EventQueue.children]
  · intro c hc
    rw [mkFan, EventQueue.children, List.map_map] at hc
    obtain ⟨x, hx, rfl⟩ := List.mem_map.mp hc
    have hx0 : x = [] := List.eq_of_mem_replicate hx
    subst hx0
    simp [EventQueue.buffer]

/-- C5: `close()` is idempotent — closing twice equals closing once, and
the underlying drain/shutdown action runs exactly once per queue — and
closing an open parent closes every tapped child, after which
`is_closed()` is true for the parent and for every child; an open child's
drain action runs exactly once. -/
theorem close_idempotent_and_propagates (q : EventQueue) :
    EventQueue.close (EventQueue.close q) = EventQueue.close q
    ∧ (EventQueue.close q).is_closed = true
    ∧ (q.is_closed = false →
        (EventQueue.close q).shutdown_calls = q.shutdown_calls + 1
        ∧ (EventQueue.close q).children = q.children.map EventQueue.close
        ∧ (∀ c ∈ (EventQueue.close q).children, c.is_closed = true)
        ∧ (∀ c ∈ q.children, c.is_closed = false →
            (EventQueue.close c).shutdown_calls = c.shutdown_calls + 1)) := by
  refine ⟨close_of_closed _ (close_is_closed q), close_is_closed q, ?_⟩
  intro hopen
  obtain ⟨b, c, sc, ch⟩ := q
  cases c
  · rw [close_open]
    refine ⟨rfl, rfl, ?_, ?_⟩
    · intro x hx
      rw [EventQueue.children] at hx
      obtain ⟨y, hy, rfl⟩ := List.mem_map.mp hx
      exact close_is_closed y
    · intro x hx hxopen
      obtain ⟨bx, cx, scx, chx⟩ := x
      cases cx
      · rw [close_open]; rfl
      · exact absurd hxopen (by simp [EventQueue.is_closed])
  · exact absurd hopen (by simp [EventQueue.is_closed])

/-- C7: on a closed queue, `enqueue` is a no-op leaving the whole queue
state (buffer, taps and all) unchanged, and `dequeue` on a closed and
empty queue raises `QueueEmpty` in both the no-wait and the wait mode
rather than suspending forever. -/
theorem closed_enqueue_noop_dequeue_raises (q : EventQueue) (e : Event)
    (hclosed : q.is_closed = true) :
    EventQueue.enqueue_event e q = q
    ∧ (q.buffer = [] →
        EventQueue.dequeue_event true q = .raiseQueueEmpty
        ∧ EventQueue.dequeue_event false q = .raiseQueueEmpty) := by
  obtain ⟨b, c, sc, ch⟩ := q
  rw [EventQueue.is_closed] at hclosed
  subst hclosed
  refine ⟨enqueue_event_closed e b sc ch, ?_⟩
  intro hempty
  rw [EventQueue.buffer] at hempty
  subst hempty
  constructor <;> (rw [EventQueue.dequeue_event]; simp)

/-- Witness for C5 at a concrete queue: a fresh parent with two live
taps; closing it closes all three. -/
theorem close_idempotent_and_propagates_witness :
    EventQueue.close (EventQueue.close (EventQueue.mk [] false 0
        [EventQueue.new, EventQueue.new]))
      = EventQueue.close (EventQueue.mk [] false 0 [EventQueue.new, EventQueue.new])
    ∧ (EventQueue.close (EventQueue.mk [] false 0
        [EventQueue.new, EventQueue.new])).is_closed = true
    ∧ ((EventQueue.mk [] false 0 [EventQueue.new, EventQueue.new]).is_closed = false →
        (EventQueue.close (EventQueue.mk [] false 0
            [EventQueue.new, EventQueue.new])).shutdown_calls
          = (EventQueue.mk [] false 0 [EventQueue.new, EventQueue.new]).shutdown_calls + 1
        ∧ (EventQueue.close (EventQueue.mk [] false 0
            [EventQueue.new, EventQueue.new])).children
          = (EventQueue.mk [] false 0 [EventQueue.new, EventQueue.new]).children.map
              EventQueue.close
        ∧ (∀ c ∈ (EventQueue.close (EventQueue.mk [] false 0
            [EventQueue.new, EventQueue.new])).children, c.is_closed = true)
        ∧ (∀ c ∈ (EventQueue.mk [] false 0
            [EventQueue.new, EventQueue.new]).children, c.is_closed = false →
            (EventQueue.close c).shutdown_calls = c.shutdown_calls + 1)) :=
  close_idempotent_and_propagates (EventQueue.mk [] false 0 [EventQueue.new, EventQueue.new])

/-- Witness for C7 at a concrete closed empty queue. -/
theorem closed_enqueue_noop_dequeue_raises_witness :
    EventQueue.enqueue_event
        (.message { message_id := "m1", role := .agent, parts := [] })
        (EventQueue.mk [] true 1 [])
      = EventQueue.mk [] true 1 []
    ∧ ((EventQueue.mk [] true 1 []).buffer = [] →
        EventQueue.dequeue_event true (EventQueue.mk [] true 1 []) = .raiseQueueEmpty
        ∧ EventQueue.dequeue_event false (EventQueue.mk [] true 1 []) = .raiseQueueEmpty) :=
  closed_enqueue_noop_dequeue_raises (EventQueue.mk [] true 1 [])
    (.message { message_id := "m1", role := .agent, parts := [] }) rfl

/-! ## Claim theorems for EventConsumer and ResultAggregator -/

/-- C3: for a stream whose first event is a bare Message, the
EventConsumer yields the Message and stops the sequence immediately after
that yield; the aggregator's `consumeAll` returns that Message leaving
the task-manager state untouched (so `process` is called for no event of
the stream, whatever the task manager); `consumeAndBreakOnInterrupt`
returns `(message, false)` with an empty background remainder; the
recording task manager confirms that no event is folded. -/
theorem message_short_circuit {σ : Type} (TM : TaskManagerIface σ) (s : σ)
    (blocking : Bool) (m : Message) (rest : List Event) :
    EventConsumer.consume_all (.message m :: rest) = [.message m]
    ∧ ResultAggregator.consume_all TM s (.message m :: rest) = (s, some (.msg m))
    ∧ ResultAggregator.consume_and_break_on_interrupt TM blocking s (.message m :: rest)
        = ⟨s, some (.msg m), false, []⟩
    ∧ (ResultAggregator.consume_all recorderTM [] (.message m :: rest)).1 = [] :=
  ⟨rfl, rfl, rfl, rfl⟩

theorem interrupts_message_false (m : Message) : (Event.message m).interrupts = false := rfl

theorem consume_break_step_no_interrupt {σ : Type} (TM : TaskManagerIface σ)
    (s : σ) (e : Event) (rest : List Event)
    (hm : e.isMessage = false) (hi : e.interrupts = false) :
    ResultAggregator.consume_and_break_on_interrupt TM true s (e :: rest)
      = ResultAggregator.consume_and_break_on_interrupt TM true (TM.process s e) rest := by
  cases e <;>
    simp_all [ResultAggregator.consume_and_break_on_interrupt, Event.isMessage,
      Event.interrupts]

theorem consume_break_step_interrupt {σ : Type} (TM : TaskManagerIface σ)
    (s : σ) (e : Event) (rest : List Event) (hi : e.interrupts = true) :
    ResultAggregator.consume_and_break_on_interrupt TM true s (e :: rest)
      = ⟨TM.process s e, (TM.get_task (TM.process s e)).map .task, true, rest⟩ := by
  cases e <;>
    simp_all [ResultAggregator.consume_and_break_on_interrupt, Event.interrupts]

theorem consume_break_step_nonblocking {σ : Type} (TM : TaskManagerIface σ)
    (s : σ) (e : Event) (rest : List Event) (hm : e.isMessage = false) :
    ResultAggregator.consume_and_break_on_interrupt TM false s (e :: rest)
      = ⟨TM.process s e, (TM.get_task (TM.process s e)).map .task, true, rest⟩ := by
  cases e <;>
    simp_all [ResultAggregator.consume_and_break_on_interrupt, Event.isMessage]

/-- C2: for every event stream consumed by `consumeAndBreakOnInterrupt`
(with any task manager): once the first `auth_required` task/status event
is reached — after a prefix with no Message and no interrupting event —
the blocking call folds exactly the prefix plus that event, returns the
current result with `interrupted = true`, and hands the untouched
remainder to the background continuation, which folds each remaining
event so that foreground plus background together process the entire
stream; with `blocking = false` the call does the same right after the
first (non-Message) event regardless of its state. -/
theorem interrupt_breaks_and_schedules_background {σ : Type} (TM : TaskManagerIface σ) :
    (∀ (s : σ) (pre : List Event) (e : Event) (rest : List Event),
      (∀ x ∈ pre, x.isMessage = false ∧ x.interrupts = false) →
      e.interrupts = true →
      ResultAggregator.consume_and_break_on_interrupt TM true s (pre ++ e :: rest)
        = ⟨ResultAggregator.continue_consuming TM s (pre ++ [e]),
           (TM.get_task (ResultAggregator.continue_consuming TM s (pre ++ [e]))).map .task,
           true, rest⟩
      ∧ ResultAggregator.continue_consuming TM
            (ResultAggregator.continue_consuming TM s (pre ++ [e])) rest
          = ResultAggregator.continue_consuming TM s (pre ++ e :: rest))
    ∧ (∀ (s : σ) (e : Event) (rest : List Event),
      e.isMessage = false →
      ResultAggregator.consume_and_break_on_interrupt TM false s (e :: rest)
        = ⟨TM.process s e, (TM.get_task (TM.process s e)).map .task, true, rest⟩
      ∧ ResultAggregator.continue_consuming TM (TM.process s e) rest
        = ResultAggregator.continue_consuming TM s (e :: rest)) := by
  constructor
  · intro s pre e rest hpre hi
    induction pre generalizing s with
    | nil =>
      refine ⟨?_, ?_⟩
      · rw [List.nil_append, consume_break_step_interrupt TM s e rest hi]
        simp [ResultAggregator.continue_consuming]
      · simp [ResultAggregator.continue_consuming]
    | cons x xs ih =>
      have hx := hpre x (List.mem_cons_self x xs)
      have hxs : ∀ y ∈ xs, y.isMessage = false ∧ y.interrupts = false :=
        fun y hy => hpre y (List.mem_cons_of_mem x hy)
      have step := consume_break_step_no_interrupt TM s x (xs ++ e :: rest) hx.1 hx.2
      rw [List.cons_append, step]
      have hfold : ∀ l : List Event,
          ResultAggregator.continue_consuming TM s (x :: l)
            = ResultAggregator.continue_consuming TM (TM.process s x) l := by
        intro l; simp [ResultAggregator.continue_consuming]
      rw [List.cons_append, hfold, hfold]
      exact ih (TM.process s x) hxs
  · intro s e rest hm
    refine ⟨consume_break_step_nonblocking TM s e rest hm, ?_⟩
    simp [ResultAggregator.continue_consuming]

/-- Witness for C2: the recording task manager on the concrete stream
`[Task(auth_required), Message]` (blocking) and `[Task(auth_required)]`
(non-blocking). -/
theorem interrupt_breaks_and_schedules_background_witness :
    (ResultAggregator.consume_and_break_on_interrupt recorderTM true []
        ([] ++ Event.task sampleAuthTask :: [Event.message sampleMessage])
      = ⟨ResultAggregator.continue_consuming recorderTM []
            ([] ++ [Event.task sampleAuthTask]),
         (recorderTM.get_task (ResultAggregator.continue_consuming recorderTM []
            ([] ++ [Event.task sampleAuthTask]))).map .task,
         true, [Event.message sampleMessage]⟩
      ∧ ResultAggregator.continue_consuming recorderTM
            (ResultAggregator.continue_consuming recorderTM []
              ([] ++ [Event.task sampleAuthTask]))
            [Event.message sampleMessage]
          = ResultAggregator.continue_consuming recorderTM []
              ([] ++ Event.task sampleAuthTask :: [Event.message sampleMessage]))
    ∧ (ResultAggregator.consume_and_break_on_interrupt recorderTM false []
        (Event.task sampleAuthTask :: [])
      = ⟨recorderTM.process [] (Event.task sampleAuthTask),
         (recorderTM.get_task (recorderTM.process [] (Event.task sampleAuthTask))).map .task,
         true, []⟩
      ∧ ResultAggregator.continue_consuming recorderTM
            (recorderTM.process [] (Event.task sampleAuthTask)) []
          = ResultAggregator.continue_consuming recorderTM []
              (Event.task sampleAuthTask :: [])) :=
  ⟨(interrupt_breaks_and_schedules_background recorderTM).1 [] []
      (Event.task sampleAuthTask) [Event.message sampleMessage]
      (by simp) (by decide),
   (interrupt_breaks_and_schedules_background recorderTM).2 []
      (Event.task sampleAuthTask) [] (by decide)⟩

/-! ## Helper lemmas on the artifact merge policy -/

theorem replaceOrAdd_not_found (a : Artifact) (l : List Artifact)
    (h : hasArtifactId a.artifact_id l = false) :
    replaceOrAdd a l = l ++ [a] := by
  induction l with
  | nil => rfl
  | cons x xs ih =>
    rw [hasArtifactId, List.any_cons, Bool.or_eq_false_iff] at h
    have h2 : hasArtifactId a.artifact_id xs = false := h.2
    rw [replaceOrAdd, if_neg (by simp [h.1]), ih h2, List.cons_append]

theorem replaceOrAdd_found (a x : Artifact) (pre post : List Artifact)
    (hpre : hasArtifactId a.artifact_id pre = false)
    (hx : x.artifact_id = a.artifact_id) :
    replaceOrAdd a (pre ++ x :: post) = pre ++ a :: post := by
  induction pre with
  | nil =>
    rw [List.nil_append, replaceOrAdd, if_pos (by simp [hx]), List.nil_append]
  | cons y ys ih =>
    rw [hasArtifactId, List.any_cons, Bool.or_eq_false_iff] at hpre
    have h2 : hasArtifactId a.artifact_id ys = false := hpre.2
    rw [List.cons_append, replaceOrAdd, if_neg (by simp [hpre.1]), ih h2,
      List.cons_append]

theorem appendPartsTo_found (a x : Artifact) (pre post : List Artifact)
    (hpre : hasArtifactId a.artifact_id pre = false)
    (hx : x.artifact_id = a.artifact_id) :
    appendPartsTo a (pre ++ x :: post)
      = pre ++ { x with parts := x.parts ++ a.parts } :: post := by
  induction pre with
  | nil =>
    rw [List.nil_append, appendPartsTo, if_pos (by simp [hx]), List.nil_append]
  | cons y ys ih =>
    rw [hasArtifactId, List.any_cons, Bool.or_eq_false_iff] at hpre
    have h2 : hasArtifactId a.artifact_id ys = false := hpre.2
    rw [List.cons_append, appendPartsTo, if_neg (by simp [hpre.1]), ih h2,
      List.cons_append]

theorem hasArtifactId_found (aid : String) (x : Artifact) (pre post : List Artifact)
    (hx : x.artifact_id = aid) :
    hasArtifactId aid (pre ++ x :: post) = true := by
  rw [hasArtifactId, List.any_append, List.any_cons, hx]
  simp

/-! ## Claim theorems for the artifact merge policy -/

/-- C6: the artifact merge policy: with `append=false`/absent and no
matching artifact id the event's artifact is appended as a new entry;
with `append=false`/absent and a matching id the matching artifact is
replaced in place; with `append=true` and a matching id the event's parts
are appended to that artifact's parts in order; and the concrete
replace-then-append scenario ends with exactly one artifact `a1` holding
its three parts in enqueue order. -/
theorem artifact_merge_policy :
    (∀ (task : Task) (event : TaskArtifactUpdateEvent),
      (event.append = none ∨ event.append = some false) →
      hasArtifactId event.artifact.artifact_id (task.artifacts.getD []) = false →
      (append_artifact_to_task task event).artifacts
        = some (task.artifacts.getD [] ++ [event.artifact]))
    ∧ (∀ (task : Task) (event : TaskArtifactUpdateEvent)
        (pre post : List Artifact) (x : Artifact),
      (event.append = none ∨ event.append = some false) →
      task.artifacts = some (pre ++ x :: post) →
      hasArtifactId event.artifact.artifact_id pre = false →
      x.artifact_id = event.artifact.artifact_id →
      (append_artifact_to_task task event).artifacts
        = some (pre ++ event.artifact :: post))
    ∧ (∀ (task : Task) (event : TaskArtifactUpdateEvent)
        (pre post : List Artifact) (x : Artifact),
      event.append = some true →
      task.artifacts = some (pre ++ x :: post) →
      hasArtifactId event.artifact.artifact_id pre = false →
      x.artifact_id = event.artifact.artifact_id →
      (append_artifact_to_task task event).artifacts
        = some (pre ++ { x with parts := x.parts ++ event.artifact.parts } :: post))
    ∧ (append_artifact_to_task
        (append_artifact_to_task scenarioTask scenarioReplaceEvent)
        scenarioAppendEvent).artifacts
      = some [{ artifact_id := "a1",
                parts := [.text "p1", .text "p2", .text "p3"] }] := by
  refine ⟨?_, ?_, ?_, by decide⟩
  · intro task event happ hno
    have hg : event.append.getD false = false := by
      rcases happ with h | h <;> rw [h] <;> rfl
    simp only [append_artifact_to_task, hg, Bool.false_eq_true, if_false]
    rw [replaceOrAdd_not_found _ _ hno]
  · intro task event pre post x happ htask hpre hx
    have hg : event.append.getD false = false := by
      rcases happ with h | h <;> rw [h] <;> rfl
    simp only [append_artifact_to_task, hg, Bool.false_eq_true, if_false, htask,
      Option.getD_some]
    rw [replaceOrAdd_found _ _ _ _ hpre hx]
  · intro task event pre post x happ htask hpre hx
    simp only [append_artifact_to_task, happ, Option.getD_some, if_true, htask]
    rw [hasArtifactId_found _ _ _ _ hx]
    simp only [if_true]
    rw [appendPartsTo_found _ _ _ _ hpre hx]

/-- Witness for C6: the three general clauses instantiated on the
concrete scenario task and events. -/
theorem artifact_merge_policy_witness :
    (append_artifact_to_task scenarioTask scenarioReplaceEvent).artifacts
      = some (scenarioTask.artifacts.getD [] ++ [scenarioReplaceEvent.artifact])
    ∧ (append_artifact_to_task scenarioMidTask scenarioReplaceEvent).artifacts
      = some ([] ++ scenarioReplaceEvent.artifact :: [])
    ∧ (append_artifact_to_task scenarioMidTask scenarioAppendEvent).artifacts
      = some ([] ++
          { artifact_id := "a1",
            parts := [Part.text "p1", Part.text "p2"]
              ++ scenarioAppendEvent.artifact.parts } :: []) :=
  ⟨artifact_merge_policy.1 scenarioTask scenarioReplaceEvent (Or.inr rfl) (by decide),
   artifact_merge_policy.2.1 scenarioMidTask scenarioReplaceEvent [] []
     { artifact_id := "a1", parts := [Part.text "p1", Part.text "p2"] }
     (Or.inr rfl) rfl (by decide) rfl,
   artifact_merge_policy.2.2.1 scenarioMidTask scenarioAppendEvent [] []
     { artifact_id := "a1", parts := [Part.text "p1", Part.text "p2"] }
     rfl rfl (by decide) rfl⟩

/-- C10: an artifact update event with `append=true` whose `artifact_id`
matches no existing artifact on the task leaves the task completely
unchanged — the event is silently dropped. -/
theorem append_no_match_is_dropped (task : Task) (event : TaskArtifactUpdateEvent)
    (happ : event.append = some true)
    (hno : hasArtifactId event.artifact.artifact_id (task.artifacts.getD []) = false) :
    append_artifact_to_task task event = task := by
  simp only [append_artifact_to_task, happ, Option.getD_some, if_true, hno,
    Bool.false_eq_true, if_false]

/-- Witness for C10 on the concrete scenario task with an unmatched
artifact id. -/
theorem append_no_match_is_dropped_witness :
    append_artifact_to_task scenarioMidTask scenarioNoMatchEvent = scenarioMidTask :=
  append_no_match_is_dropped scenarioMidTask scenarioNoMatchEvent rfl (by decide)

/-! ## Claim theorems for task accumulation -/

/-- C9: `updateWithMessage(message, task)` appends the message to
`task.history`, first moving any message held in `task.status.message`
into history immediately ahead of it and clearing that slot (so a status
message is never present in both slots at once); and processing a
`TaskStatusUpdateEvent` whose status carries a message appends that
message to the task's history before the new status is stored. -/
theorem update_with_message_moves_status_message (m : Message) (t : Task) :
    (update_with_message m t).history
      = some (t.history.getD [] ++ t.status.message.toList ++ [m])
    ∧ (update_with_message m t).status.message = none
    ∧ (∀ (cur : Task) (ev : TaskStatusUpdateEvent) (m2 : Message),
        ev.status.message = some m2 →
        (process_status_update (some cur) ev).history
          = some (cur.history.getD [] ++ [m2])
        ∧ (process_status_update (some cur) ev).status = ev.status) := by
  refine ⟨?_, ?_, ?_⟩
  · cases h : t.status.message <;> simp [update_with_message, h, Option.toList]
  · cases h : t.status.message <;> simp [update_with_message, h]
  · intro cur ev m2 hm
    constructor <;> simp [process_status_update, hm]

/-- Witness for C9 on a concrete task with a populated status-message
slot, and a concrete status-update event carrying a message. -/
theorem update_with_message_moves_status_message_witness :
    (update_with_message sampleMessage sampleStatusTask).history
      = some (sampleStatusTask.history.getD []
          ++ sampleStatusTask.status.message.toList ++ [sampleMessage])
    ∧ (update_with_message sampleMessage sampleStatusTask).status.message = none
    ∧ ((process_status_update (some scenarioTask) sampleStatusEvent).history
        = some (scenarioTask.history.getD [] ++ [sampleMessage])
      ∧ (process_status_update (some scenarioTask) sampleStatusEvent).status
        = sampleStatusEvent.status) :=
  ⟨(update_with_message_moves_status_message sampleMessage sampleStatusTask).1,
   (update_with_message_moves_status_message sampleMessage sampleStatusTask).2.1,
   (update_with_message_moves_status_message sampleMessage sampleStatusTask).2.2
     scenarioTask sampleStatusEvent sampleMessage rfl⟩

/-! ## Claim theorems for the request orchestrator -/

/-- C1: for every task in a terminal state, the blocking send, the
streaming send and resubscribe all raise `InvalidParams` (with the
terminal-state message), and the AgentExecutor's `execute` is never
invoked for the call. -/
theorem terminal_state_guard (t : Task) (tapq : Option EventQueue)
    (h : t.status.state.isTerminal = true) :
    on_message_send (some t) = .error (.invalidParams (terminalStateMessage t))
    ∧ executeCallCount (on_message_send (some t)) = 0
    ∧ on_message_send_stream (some t) = .error (.invalidParams (terminalStateMessage t))
    ∧ executeCallCount (on_message_send_stream (some t)) = 0
    ∧ on_resubscribe_to_task (some t) tapq
      = .error (.invalidParams (terminalStateMessage t)) := by
  simp [on_message_send, on_message_send_stream, on_resubscribe_to_task,
    executeCallCount, h]

/-- Witness for C1 on a concrete completed task. -/
theorem terminal_state_guard_witness :
    on_message_send (some sampleCompletedTask)
      = .error (.invalidParams (terminalStateMessage sampleCompletedTask))
    ∧ executeCallCount (on_message_send (some sampleCompletedTask)) = 0
    ∧ on_message_send_stream (some sampleCompletedTask)
      = .error (.invalidParams (terminalStateMessage sampleCompletedTask))
    ∧ executeCallCount (on_message_send_stream (some sampleCompletedTask)) = 0
    ∧ on_resubscribe_to_task (some sampleCompletedTask) none
      = .error (.invalidParams (terminalStateMessage sampleCompletedTask)) :=
  terminal_state_guard sampleCompletedTask none rfl

/-- C8: cancel on an existing task: when tap yields nothing a fresh
`EventQueue` is handed to `AgentExecutor.cancel` (which is always invoked
with a valid queue, the tapped one otherwise); the registered background
execution unit is cancelled directly exactly when one is registered in
the running-agent map; and a drain producing a bare `Message` yields
`InternalError` with message "Agent did not return valid response for
cancel". -/
theorem cancel_call_contract (t : Task) (running : Bool) (drained : AggResult)
    (tq : EventQueue) (m : Message) :
    on_cancel_task (some t) none running drained
      = .ok { queue_for_cancel := EventQueue.new, agent_cancel_called := true,
              producer_cancelled := running, result := cancelResult drained }
    ∧ on_cancel_task (some t) (some tq) running drained
      = .ok { queue_for_cancel := tq, agent_cancel_called := true,
              producer_cancelled := running, result := cancelResult drained }
    ∧ cancelResult (.msg m)
      = .error (.internalError "Agent did not return valid response for cancel") :=
  ⟨rfl, rfl, rfl⟩

end A2A
